import Mathlib

/-!
Shallow embedding of `src/index.js` of the loopback-component-fixtures
repository, together with theorems settling the specification claims.

The JavaScript module keeps five module-level mutable bindings
(`models`, `fixtureNames`, `fixturePath`, `cachedFixtures`, `config`);
here the mutable ones are threaded explicitly through a `ModuleState`
record, host-framework collaborators (the model registry, the data-source
registry with its `automigrate`, the filesystem) are passed as explicit
parameters, and the asynchronous `async.each` iteration is determinised
in list order (all callbacks joined, first error reported).
-/

namespace LoopbackFixtures

/-- A JavaScript value as far as the module inspects one: a single record
object, an array of records (record payloads are opaque, numbered), or any
other primitive carrying only its truthiness. Needed because line 41 of
`src/index.js` tests `!cachedFixtures[fixtureName]`, a truthiness test. -/
inductive JsData where
  | obj (record : Nat)
  | arr (records : List Nat)
  | prim (truthyFlag : Bool)
deriving DecidableEq, Repr

/-- JavaScript truthiness of a `JsData` value: objects and arrays (even
empty ones) are truthy; primitives carry their own truthiness. -/
def JsData.truthy : JsData → Bool
  | .obj _ => true
  | .arr _ => true
  | .prim t => t

/-- The characters of the extension string `".json"` used both by the
regular expression match at line 28 and the `replace` call at line 29. -/
def jsonChars : List Char := ['.', 'j', 's', 'o', 'n']

/-- JavaScript `String.prototype.replace` with a plain-string pattern and
empty replacement: removes the FIRST occurrence of `pat` from the list,
leaving the list unchanged when `pat` does not occur. -/
def stripFirst (pat : List Char) : List Char → List Char
  | [] => []
  | c :: rest =>
    if pat.isPrefixOf (c :: rest) then (c :: rest).drop pat.length
    else c :: stripFirst pat rest

/-- The test `fileName.match(/\.json$/)` at line 28: the file name ends in
`.json`. -/
def endsWithJson (fileName : String) : Bool :=
  jsonChars.isSuffixOf fileName.data

/-- The call `fileName.replace('.json', '')` at line 29. -/
def removeFirstJson (fileName : String) : String :=
  String.mk (stripFirst jsonChars fileName.data)

/-- Embedding of `createFixtureList` (lines 26-30): list the fixtures
directory, keep the entries matching `/\.json$/`, and map each through
`replace('.json', '')`.  The directory contents at the moment of the call
are the `dirContents` parameter. -/
def createFixtureList (dirContents : List String) : List String :=
  (dirContents.filter endsWithJson).map removeFirstJson

/-- Modelled from the spec's words for comparison ("the resulting fixture
name is F with its final \".json\" suffix removed"): drop the last five
characters of the file name. -/
def stripSuffixSpec (fileName : String) : String :=
  String.mk (fileName.data.take (fileName.data.length - jsonChars.length))

/-- JavaScript `String.prototype.split(',')` over the characters of the
string: every comma separates groups, so the result never is empty and an
empty string splits to `[[]]`. -/
def splitChars (sep : Char) : List Char → List (List Char)
  | [] => [[]]
  | c :: rest =>
    match splitChars sep rest with
    | [] => [[]]
    | grp :: grps => if c = sep then [] :: grp :: grps else (c :: grp) :: grps

/-- The call `select.split(',')` at lines 124 and 137. -/
def jsSplitComma (s : String) : List String :=
  (splitChars ',' s.data).map String.mk

/-- The call `modelName.toLowerCase()` at line 151. -/
def jsToLower (s : String) : String :=
  String.mk (s.data.map Char.toLower)

/-- The module-level mutable state of `src/index.js` that the fixture
operations read and write: `cachedFixtures` (undefined until the first
`loadFixtures` call, then a map from fixture name to parsed data),
`fixtureNames` (undefined until the first `loadFixtures` call, then the
directory listing captured at that moment), plus two observation logs:
`reads` records every `require` of a fixture file from disk (line 33) and
`creates` records every `models[name].create(data, ...)` call (line 47),
in order. -/
structure ModuleState where
  cachedFixtures : Option (List (String × JsData))
  fixtureNames : Option (List String)
  reads : List String
  creates : List (String × JsData)
deriving DecidableEq, Repr

/-- Embedding of `addToCache` (lines 32-35): `require` the fixture file
from disk (logged in `reads`) and store the parsed data in the cache. -/
def addToCache (disk : String → JsData) (name : String) (st : ModuleState) :
    ModuleState :=
  { st with
    cachedFixtures := some ((name, disk name) :: st.cachedFixtures.getD [])
    reads := st.reads ++ [name] }

/-- The truthiness test `cachedFixtures[fixtureName]` at line 41: true
when the cache has an entry for `name` whose value is truthy. -/
def cacheHit (st : ModuleState) (name : String) : Bool :=
  match (st.cachedFixtures.getD []).lookup name with
  | some d => d.truthy
  | none => false

/-- How one `loadFixture` call concludes: `thrown` is the synchronous
exception raised by evaluating `models[fixtureName].create` when no model
is registered under `fixtureName` (property access on `undefined`);
`cb e` is the completion callback `done(err)` at line 53, with `err`
whatever the model's `create` reported (`none` for success). -/
inductive LoadOutcome where
  | thrown
  | cb (err : Option Nat)
deriving DecidableEq, Repr

/-- Discriminator: did the load conclude through its completion
callback (as opposed to a synchronous exception)? -/
def LoadOutcome.isCb : LoadOutcome → Bool
  | .cb _ => true
  | .thrown => false

/-- Embedding of `loadFixture` (lines 37-55).  The model registry is an
association list from model name to that model's `create` behaviour
(`none` = create succeeds, `some e` = create reports error `e`); `disk`
gives the parsed content of each fixture file.  First the cache is
consulted (adding from disk on a falsy entry, lines 41-44), then
`models[fixtureName].create(cachedFixtures[fixtureName], done)` runs
(line 47): a missing model throws, otherwise the create call is logged
and its error is handed to `done`. -/
def loadFixture (models : List (String × Option Nat)) (disk : String → JsData)
    (name : String) (st : ModuleState) : ModuleState × LoadOutcome :=
  let st1 := if cacheHit st name then st else addToCache disk name st
  match models.lookup name with
  | none => (st1, .thrown)
  | some behavior =>
    let data := ((st1.cachedFixtures.getD []).lookup name).getD (.prim false)
    ({ st1 with creates := st1.creates ++ [(name, data)] }, .cb behavior)

/-- How an `async.each` join concludes: a synchronous exception from one
iterator body propagates (`thrown`), otherwise the final callback receives
the first reported error, or `none` when every iterator succeeded. -/
inductive ManyOutcome where
  | thrown
  | done (err : Option Nat)
deriving DecidableEq, Repr

/-- First-error aggregation of `async.each`: the earlier error wins. -/
def firstErr : Option Nat → Option Nat → Option Nat
  | some e, _ => some e
  | none, e2 => e2

/-- The `async.each(names, loadFixture, cb)` joins at lines 67 and 69,
determinised in list order: every name is processed (each mutating the
shared cache and issuing its create), the first error is reported to the
final callback, and a synchronous throw from `loadFixture` propagates. -/
def loadEach (models : List (String × Option Nat)) (disk : String → JsData) :
    List String → ModuleState → ModuleState × ManyOutcome
  | [], st => (st, .done none)
  | n :: rest, st =>
    match loadFixture models disk n st with
    | (st1, .thrown) => (st1, .thrown)
    | (st1, .cb e) =>
      match loadEach models disk rest st1 with
      | (st2, .thrown) => (st2, .thrown)
      | (st2, .done e2) => (st2, .done (firstErr e e2))

/-- Embedding of `loadFixtures` (lines 57-71).  `fixtures = none` models
the one-argument call `loadFixtures(cb)` (line 65-67: iterate over the
module-level `fixtureNames`); `fixtures = some l` models the two-argument
call (line 69: iterate over the given names).  When `cachedFixtures` is
still undefined the guard at lines 59-63 initialises the cache and
captures the directory listing of this call into `fixtureNames`. -/
def loadFixtures (models : List (String × Option Nat)) (disk : String → JsData)
    (dir : List String) (fixtures : Option (List String)) (st : ModuleState) :
    ModuleState × ManyOutcome :=
  let st0 := if st.cachedFixtures.isNone then
      { st with cachedFixtures := some [], fixtureNames := some (createFixtureList dir) }
    else st
  match fixtures with
  | none => loadEach models disk (st0.fixtureNames.getD []) st0
  | some l => loadEach models disk l st0

/-- The `select` argument of `setupFixtures` and `teardownFixtures`:
absent (or a callback function in its place), a comma-separated string,
or an array of names. -/
inductive Select where
  | noSel
  | str (s : String)
  | list (l : List String)
deriving DecidableEq, Repr

/-- The selection dispatch shared by lines 119-127 and 133-139: only a
string `select` passes an explicit name list (its comma-split); every
other value - including an array - falls through to the no-selection
branch.  The `Array.isArray(select)` tests at lines 124 and 137 sit inside
the string branch and are therefore never true. -/
def setupSelect : Select → Option (List String)
  | .str s => some (jsSplitComma s)
  | _ => none

/-- How one `setupFixtures` call concludes: a propagated synchronous
exception, `cb(errors)` (line 115), or `cb(null, 'setup complete')`
(line 117). -/
inductive SetupOutcome where
  | thrown
  | cbErr (e : Nat)
  | ok (msg : String)
deriving DecidableEq, Repr

/-- Embedding of `setupCallback` (lines 113-118): on truthy `errors` with
`errorOnSetupFailure` enabled the errors are handed to the caller,
otherwise the caller sees `cb(null, 'setup complete')`. -/
def setupCallback (errorOnSetupFailure : Bool) : Option Nat → SetupOutcome
  | some e => if errorOnSetupFailure then .cbErr e else .ok "setup complete"
  | none => .ok "setup complete"

/-- Embedding of `setupFixtures` (lines 110-128): dispatch on the type of
`select`, run `loadFixtures`, and finish through `setupCallback` (a
synchronous throw from a load propagates past it). -/
def setupFixtures (errorOnSetupFailure : Bool)
    (models : List (String × Option Nat)) (disk : String → JsData)
    (dir : List String) (select : Select) (st : ModuleState) :
    ModuleState × SetupOutcome :=
  match loadFixtures models disk dir (setupSelect select) st with
  | (st1, .thrown) => (st1, .thrown)
  | (st1, .done e) => (st1, setupCallback errorOnSetupFailure e)

/-- The `environments` configuration option: a single string or a list of
strings (line 83 dispatches on `Array.isArray`). -/
inductive Environments where
  | scalar (s : String)
  | list (l : List String)
deriving DecidableEq, Repr

/-- The resolved configuration (lines 19-24 give the defaults). -/
structure Config where
  loadFixturesOnStartup : Bool
  errorOnSetupFailure : Bool
  environments : Environments
  fixturesPath : String
deriving DecidableEq, Repr

/-- The module-level `defaults` object (lines 19-24). -/
def defaults : Config :=
  { loadFixturesOnStartup := false
    errorOnSetupFailure := false
    environments := .scalar "test"
    fixturesPath := "/server/test-fixtures/" }

/-- The `options` argument of `init`: each recognised key either present
with a value or absent. -/
structure InitOptions where
  loadFixturesOnStartup : Option Bool
  errorOnSetupFailure : Option Bool
  environments : Option Environments
  fixturesPath : Option String
deriving DecidableEq, Repr

/-- Modelled from the `merge` npm package used at line 75,
`config = merge(defaults, options)`: `merge(target, source)` copies each
of source's own keys into target, MUTATING target in place, and returns
target itself; keys absent from source keep target's value. -/
def mergeInto (target : Config) (source : InitOptions) : Config :=
  { loadFixturesOnStartup :=
      source.loadFixturesOnStartup.getD target.loadFixturesOnStartup
    errorOnSetupFailure :=
      source.errorOnSetupFailure.getD target.errorOnSetupFailure
    environments := source.environments.getD target.environments
    fixturesPath := source.fixturesPath.getD target.fixturesPath }

/-- The configuration step of `init` (line 75): the returned pair is (the
module-level `defaults` object after the call, the `config` binding) -
one and the same object, since `merge` mutates its first argument. -/
def initConfig (defaultsState : Config) (options : InitOptions) :
    Config × Config :=
  let merged := mergeInto defaultsState options
  (merged, merged)

/-- The host application's environment information: `app.settings.env`
(absent when there is no settings object or no env entry) and
`process.env.NODE_ENV`. -/
structure AppEnv where
  settingsEnv : Option String
  nodeEnv : Option String
deriving DecidableEq, Repr

/-- Lines 80-81: `app.settings && app.settings.env ? app.settings.env :
process.env.NODE_ENV` - the settings value is used only when truthy (the
empty string is falsy), else the process environment variable (possibly
itself absent). -/
def resolveEnv (a : AppEnv) : Option String :=
  match a.settingsEnv with
  | some e => if e = "" then a.nodeEnv else some e
  | none => a.nodeEnv

/-- Lines 83-85: membership test (`indexOf`) when `environments` is an
array, strict equality against the scalar otherwise; an undefined active
environment is never equal to a configured string and never found by
`indexOf` in a list of strings. -/
def envMatch (envs : Environments) (environment : Option String) : Bool :=
  match envs with
  | .list l =>
    match environment with
    | some e => l.contains e
    | none => false
  | .scalar s => environment == some s

/-- Embedding of the gating part of `init` (lines 80-99): resolve the
active environment, compare it with `config.environments`, return
unchanged state when there is no match (line 89), and invoke the startup
load of all fixtures exactly when the environment matches and
`loadFixturesOnStartup` is set.  The returned Boolean records whether the
startup `loadFixtures` call was made. -/
def init (cfg : Config) (app : AppEnv) (models : List (String × Option Nat))
    (disk : String → JsData) (dir : List String) (st : ModuleState) :
    ModuleState × Bool :=
  let environment := resolveEnv app
  if envMatch cfg.environments environment then
    if cfg.loadFixturesOnStartup then
      ((loadFixtures models disk dir none st).1, true)
    else (st, false)
  else (st, false)

/-- Lines 132-139: the names `teardownFixtures` will pass to the
per-data-source migration - the comma-split of a string `select`, and the
module-level `fixtureNames` (possibly still undefined) for every other
`select` value, arrays included. -/
def fixturesToTeardown (fixtureNames : Option (List String)) :
    Select → Option (List String)
  | .str s => some (jsSplitComma s)
  | _ => fixtureNames

/-- One observable `automigrate` call made during teardown: either a
per-model re-migration `dataSource.automigrate(modelName, cb)` (line 155)
or a whole-data-source re-migration `dataSource.automigrate(cb)`
(line 169). -/
inductive MigrateAction where
  | model (ds : String) (modelName : String)
  | full (ds : String)
deriving DecidableEq, Repr

/-- Embedding of `migrateDataSource` (lines 142-174) for one data source:
when the module-level `fixtureNames` is an array (line 146), re-migrate
each name of `toTeardown` in original then lowercase form (lines 151-166),
reporting the first `automigrate` error; otherwise issue one full
`automigrate` whose result is discarded (lines 168-172).  `migErr` gives
each per-model `automigrate` outcome. -/
def migrateDataSource (migErr : String → String → Option Nat)
    (fixtureNames : Option (List String)) (toTeardown : List String)
    (ds : String) : List MigrateAction × Option Nat :=
  match fixtureNames with
  | some _ =>
    let both := toTeardown ++ toTeardown.map jsToLower
    (both.map (MigrateAction.model ds), both.findSome? (migErr ds))
  | none => ([.full ds], none)

/-- The observable outcome of one `teardownFixtures` call: every
`automigrate` call made (in determinised order), the aggregate error the
final `async.each` callback received (it is only logged, lines 177-183),
and the error and message handed to the caller's callback (line 185). -/
structure TeardownRun where
  actions : List MigrateAction
  logged : Option Nat
  cbErr : Option Nat
  cbMsg : String
deriving DecidableEq, Repr

/-- Embedding of `teardownFixtures` (lines 130-187): compute
`fixturesToTeardown` from `select`, run `migrateDataSource` over every
registered data-source name, and - whatever errors the join reported -
invoke the caller's callback as `cb(null, 'teardown complete')`. -/
def teardownFixtures (migErr : String → String → Option Nat)
    (dataSourceNames : List String) (fixtureNames : Option (List String))
    (select : Select) : TeardownRun :=
  let toTeardown := (fixturesToTeardown fixtureNames select).getD []
  { actions := dataSourceNames.flatMap
      (fun ds => (migrateDataSource migErr fixtureNames toTeardown ds).1)
    logged := dataSourceNames.findSome?
      (fun ds => (migrateDataSource migErr fixtureNames toTeardown ds).2)
    cbErr := none
    cbMsg := "teardown complete" }

/-- The module state at process start: both `cachedFixtures` and
`fixtureNames` undefined, nothing read, nothing created. -/
def st0 : ModuleState :=
  { cachedFixtures := none, fixtureNames := none, reads := [], creates := [] }

/-- A demonstration disk on which every fixture file parses to a
one-record array. -/
def demoDisk : String → JsData := fun _ => JsData.arr [0]

/-- A demonstration model registry with models `a` and `b`, both of whose
create operations succeed. -/
def demoModels : List (String × Option Nat) := [("a", none), ("b", none)]

/-- A demonstration registry with one model `a` whose create reports
error 7. -/
def failModels : List (String × Option Nat) := [("a", some 7)]

/-- A demonstration registry with one model `a` whose create reports
error 5. -/
def oneModel : List (String × Option Nat) := [("a", some 5)]

/-- A demonstration registry with one model `users` whose create
succeeds. -/
def usersModels : List (String × Option Nat) := [("users", none)]

/-- The module state after one successful load of fixture `users`. -/
def stCached : ModuleState :=
  { cachedFixtures := some [("users", JsData.arr [0])]
    fixtureNames := some ["users"]
    reads := ["users"]
    creates := [] }

/-- The module state after `loadFixtures` has run once over `a.json` with
a failing model `a`. -/
def st1demo : ModuleState :=
  { cachedFixtures := some [("a", JsData.arr [0])]
    fixtureNames := some ["a"]
    reads := ["a"]
    creates := [("a", JsData.arr [0])] }

/-- Option values for a demonstration of configuration merging: only
`environments` supplied. -/
def optsEnvStaging : InitOptions := ⟨none, none, some (.scalar "staging"), none⟩

/-- Option values with every key omitted. -/
def optsEmpty : InitOptions := ⟨none, none, none, none⟩

/-! Helper lemmas shared by several claim theorems. -/

/-- When a pattern's first occurrence in `g ++ pat` is the final `pat`
itself, removing the first occurrence yields exactly `g`. -/
theorem stripFirst_of_late (pat g : List Char)
    (h : ∀ i, i < g.length → List.isPrefixOf pat ((g ++ pat).drop i) = false) :
    stripFirst pat (g ++ pat) = g := by
  induction g with
  | nil =>
    cases pat with
    | nil => rfl
    | cons c rest =>
      simp only [List.nil_append, stripFirst]
      rw [if_pos]
      · exact List.drop_length _
      · exact List.isPrefixOf_iff_prefix.mpr List.prefix_rfl
  | cons c g' ih =>
    have h0 := h 0 (by simp)
    rw [List.drop_zero, List.cons_append] at h0
    show stripFirst pat (c :: (g' ++ pat)) = c :: g'
    rw [stripFirst, if_neg (by simp [h0])]
    congr 1
    apply ih
    intro i hi
    have hi1 := h (i + 1) (by simpa using Nat.succ_lt_succ hi)
    rw [List.cons_append, List.drop_succ_cons] at hi1
    exact hi1

/-- Flat-mapping a singleton-producing function is mapping. -/
theorem flatMap_singleton_eq_map {α β : Type} (f : α → β) (l : List α) :
    l.flatMap (fun x => [f x]) = l.map f := by
  induction l with
  | nil => rfl
  | cons a t ih => simp only [List.flatMap_cons, List.map_cons, ih]; rfl

/-- A `loadFixture` call on a truthy-cached name with a registered model:
no disk read, one create logged with the cached data. -/
theorem loadFixture_hit (models : List (String × Option Nat))
    (disk : String → JsData) (n : String) (st : ModuleState) (b : Option Nat)
    (hhit : cacheHit st n = true) (hm : models.lookup n = some b) :
    loadFixture models disk n st
      = ({ st with creates := st.creates
            ++ [(n, ((st.cachedFixtures.getD []).lookup n).getD
                  (.prim false))] }, .cb b) := by
  unfold loadFixture
  simp [hhit, hm]

/-- A `loadFixture` call on an uncached (or falsy-cached) name with a
registered model: one disk read, the parsed content cached, one create
logged with it. -/
theorem loadFixture_miss (models : List (String × Option Nat))
    (disk : String → JsData) (n : String) (st : ModuleState) (b : Option Nat)
    (hmiss : cacheHit st n = false) (hm : models.lookup n = some b) :
    loadFixture models disk n st
      = ({ cachedFixtures := some ((n, disk n) :: st.cachedFixtures.getD [])
           fixtureNames := st.fixtureNames
           reads := st.reads ++ [n]
           creates := st.creates ++ [(n, disk n)] }, .cb b) := by
  unfold loadFixture
  simp [hmiss, addToCache, hm, List.lookup]

/-- A `loadFixture` call on a registered model logs exactly one create
for that name and concludes through its callback. -/
theorem loadFixture_creates_fst (models : List (String × Option Nat))
    (disk : String → JsData) (n : String) (st : ModuleState)
    (h : (models.lookup n).isSome = true) :
    ((loadFixture models disk n st).1.creates.map Prod.fst
       = st.creates.map Prod.fst ++ [n])
    ∧ (loadFixture models disk n st).2.isCb = true := by
  unfold loadFixture
  cases hm : models.lookup n with
  | none => rw [hm] at h; simp at h
  | some b =>
    cases hc : cacheHit st n <;>
      simp [hm, hc, addToCache, LoadOutcome.isCb]

/-- When every name of the list has a registered model, the `async.each`
join over `loadFixture` logs exactly one create per name, in order. -/
theorem loadEach_creates_fst (models : List (String × Option Nat))
    (disk : String → JsData) (names : List String) :
    ∀ st : ModuleState, (∀ n ∈ names, (models.lookup n).isSome = true) →
      (loadEach models disk names st).1.creates.map Prod.fst
        = st.creates.map Prod.fst ++ names := by
  induction names with
  | nil => intro st _; simp [loadEach]
  | cons n rest ih =>
    intro st h
    obtain ⟨hcr, hcb⟩ :=
      loadFixture_creates_fst models disk n st (h n (by simp))
    rcases hl : loadFixture models disk n st with ⟨st1, out⟩
    rw [hl] at hcr hcb
    cases out with
    | thrown => simp [LoadOutcome.isCb] at hcb
    | cb e =>
      have hrest := ih st1 (fun m hm => h m (by simp [hm]))
      rcases hrec : loadEach models disk rest st1 with ⟨st2, out2⟩
      rw [hrec] at hrest
      simp only [loadEach, hl, hrec]
      cases out2 <;> simpa [hcr, List.append_assoc] using hrest

/-- The state produced by `loadFixtures` with an explicit name list, in
terms of the create log, when every name has a registered model. -/
theorem loadFixtures_creates_fst (models : List (String × Option Nat))
    (disk : String → JsData) (dir : List String) (names : List String)
    (st : ModuleState)
    (h : ∀ n ∈ names, (models.lookup n).isSome = true) :
    (loadFixtures models disk dir (some names) st).1.creates.map Prod.fst
      = st.creates.map Prod.fst ++ names := by
  unfold loadFixtures
  cases hnil : st.cachedFixtures.isNone <;>
    simp [hnil, loadEach_creates_fst models disk names _ h]

/-- The state component of `setupFixtures` is the state component of its
inner `loadFixtures` call, whatever the outcome. -/
theorem setupFixtures_fst (flag : Bool) (models : List (String × Option Nat))
    (disk : String → JsData) (dir : List String) (sel : Select)
    (st : ModuleState) :
    (setupFixtures flag models disk dir sel st).1
      = (loadFixtures models disk dir (setupSelect sel) st).1 := by
  unfold setupFixtures
  rcases h : loadFixtures models disk dir (setupSelect sel) st with ⟨st1, out⟩
  cases out <;> rfl

/-! Claim theorems. -/

/-- C1 (counterexample): the claim fails - with fixture files `a.json`
and `b.json` on disk and the list selection `["a"]`, `setupFixtures`
issues creates for BOTH `a` and `b`, although `b` is not in the
selection. -/
theorem c1_counterexample :
    ((setupFixtures false demoModels demoDisk ["a.json", "b.json"]
        (.list ["a"]) st0).1.creates.map Prod.fst = ["a", "b"])
    ∧ ("b" ∉ (["a"] : List String)) := by decide

/-- C1 (amended): a list-valued selection is NOT honored like the
equivalent comma-separated string: `setupFixtures` with a list (or no)
selection loads all known fixtures, and `fixturesToTeardown` with a list
(or no) selection is the full module-level fixture-name list; only a
string selection restricts the operations to its comma-separated
names. -/
theorem c1_amended (flag : Bool) (models : List (String × Option Nat))
    (disk : String → JsData) (dir : List String) (st : ModuleState)
    (l : List String) (s : String) (fns : Option (List String))
    (h : ∀ n ∈ jsSplitComma s, (models.lookup n).isSome = true) :
    (setupFixtures flag models disk dir (.list l) st
       = setupFixtures flag models disk dir .noSel st)
    ∧ (fixturesToTeardown fns (.list l) = fns)
    ∧ ((setupFixtures flag models disk dir (.str s) st).1.creates.map Prod.fst
       = st.creates.map Prod.fst ++ jsSplitComma s) := by
  refine ⟨rfl, rfl, ?_⟩
  rw [setupFixtures_fst]
  exact loadFixtures_creates_fst models disk dir (jsSplitComma s) st h

/-- C1 (witness): the amended theorem applied at the concrete scenario of
the counterexample, with string selection `"a,b"`. -/
theorem c1_witness :
    (∀ n ∈ jsSplitComma "a,b", (demoModels.lookup n).isSome = true)
    ∧ ((setupFixtures false demoModels demoDisk ["a.json", "b.json"]
          (.list ["a"]) st0
        = setupFixtures false demoModels demoDisk ["a.json", "b.json"]
            .noSel st0)
       ∧ (fixturesToTeardown (some ["a", "b"]) (.list ["a"]) = some ["a", "b"])
       ∧ ((setupFixtures false demoModels demoDisk ["a.json", "b.json"]
             (.str "a,b") st0).1.creates.map Prod.fst
          = st0.creates.map Prod.fst ++ jsSplitComma "a,b")) :=
  ⟨by decide, c1_amended false demoModels demoDisk ["a.json", "b.json"] st0
      ["a"] "a,b" (some ["a", "b"]) (by decide)⟩

/-- C2 (counterexample): the claim fails - an explicit selection `"a"`
given while the module-level fixture-name list was never initialised
makes the data source re-migrate its ENTIRE model set (one argumentless
`automigrate`), not the selected name in both casings. -/
theorem c2_counterexample :
    ((teardownFixtures (fun _ _ => none) ["db"] none (.str "a")).actions
       = [.full "db"])
    ∧ ([MigrateAction.full "db"]
       ≠ (jsSplitComma "a" ++ (jsSplitComma "a").map jsToLower).map
           (MigrateAction.model "db")) := by decide

/-- C2 (amended): the branch is decided by whether the module-level
fixture-name list has been initialised, not by whether a selection was
given: with the list initialised, each data source is re-synchronized
over the comma-split selection (or, absent a selection, over all known
fixture names) in original and lowercase casings; with the list never
initialised, each data source's entire model set is re-migrated even
under an explicit selection. -/
theorem c2_amended (migErr : String → String → Option Nat)
    (dss : List String) (names : List String) (s : String) (sel : Select) :
    ((teardownFixtures migErr dss (some names) (.str s)).actions
       = dss.flatMap (fun ds =>
           (jsSplitComma s ++ (jsSplitComma s).map jsToLower).map
             (MigrateAction.model ds)))
    ∧ ((teardownFixtures migErr dss none sel).actions
       = dss.map MigrateAction.full)
    ∧ ((teardownFixtures migErr dss (some names) .noSel).actions
       = dss.flatMap (fun ds =>
           (names ++ names.map jsToLower).map (MigrateAction.model ds))) := by
  refine ⟨rfl, ?_, rfl⟩
  cases sel <;>
    simp [teardownFixtures, migrateDataSource, fixturesToTeardown,
      flatMap_singleton_eq_map]

/-- C3 (counterexample): the claim fails - after a first no-selection
setup while the directory held only `a.json`, a second no-selection setup
with the directory now holding `a.json` and `b.json` creates records for
`a` only, although `b.json` is present at the time of that call. -/
theorem c3_counterexample :
    ((setupFixtures false demoModels demoDisk ["a.json", "b.json"] .noSel
        ((setupFixtures false demoModels demoDisk ["a.json"] .noSel
            st0).1)).1.creates.map Prod.fst = ["a", "a"])
    ∧ ("b" ∈ createFixtureList ["a.json", "b.json"])
    ∧ ("b" ∉ (["a", "a"] : List String)) := by decide

/-- C3 (amended): a no-selection `setupFixtures` inserts records for
every fixture file present in the directory at the time of the FIRST
load (when the cache is still uninitialised); once the cache is
initialised, a no-selection call is independent of the directory's
current contents, reusing the fixture list discovered at that first
load. -/
theorem c3_amended (flag : Bool) (models : List (String × Option Nat))
    (disk : String → JsData) (dir dir2 : List String) (st st' : ModuleState)
    (hfresh : st.cachedFixtures = none)
    (hmodels : ∀ n ∈ createFixtureList dir, (models.lookup n).isSome = true)
    (hinit : st'.cachedFixtures.isSome = true) :
    ((setupFixtures flag models disk dir .noSel st).1.creates.map Prod.fst
       = st.creates.map Prod.fst ++ createFixtureList dir)
    ∧ (setupFixtures flag models disk dir .noSel st'
       = setupFixtures flag models disk dir2 .noSel st') := by
  constructor
  · rw [setupFixtures_fst]
    unfold loadFixtures
    simp only [hfresh, Option.isNone_none, if_true]
    exact loadEach_creates_fst models disk (createFixtureList dir) _ hmodels
  · have hnone : st'.cachedFixtures.isNone = false := by
      rcases h : st'.cachedFixtures with _ | c
      · rw [h] at hinit; simp at hinit
      · rfl
    unfold setupFixtures loadFixtures
    rw [hnone]
    simp

/-- C3 (witness): the amended theorem applied at the concrete scenario of
the counterexample. -/
theorem c3_witness :
    ((st0.cachedFixtures = none)
     ∧ (∀ n ∈ createFixtureList ["a.json"], (demoModels.lookup n).isSome = true)
     ∧ (st1demo.cachedFixtures.isSome = true))
    ∧ (((setupFixtures false demoModels demoDisk ["a.json"] .noSel
          st0).1.creates.map Prod.fst
        = st0.creates.map Prod.fst ++ createFixtureList ["a.json"])
       ∧ (setupFixtures false demoModels demoDisk ["a.json"] .noSel st1demo
          = setupFixtures false demoModels demoDisk ["a.json", "b.json"]
              .noSel st1demo)) :=
  ⟨⟨by decide, by decide, by decide⟩,
   c3_amended false demoModels demoDisk ["a.json"] ["a.json", "b.json"]
     st0 st1demo (by decide) (by decide) (by decide)⟩

/-- C4 (confirmed): whatever each per-data-source `automigrate` reports -
here universally quantified over every possible assignment of migration
errors - `teardownFixtures` hands its caller a nil error and the message
`teardown complete`; the final conjunct exhibits a run in which a failure
was in fact observed (and logged) yet the caller still saw success. -/
theorem c4_teardown_always_ok (migErr : String → String → Option Nat)
    (dss : List String) (fns : Option (List String)) (sel : Select) :
    ((teardownFixtures migErr dss fns sel).cbErr = none)
    ∧ ((teardownFixtures migErr dss fns sel).cbMsg = "teardown complete")
    ∧ ((teardownFixtures (fun _ _ => some 3) ["db"] (some ["a"])
          .noSel).logged = some 3) :=
  ⟨rfl, rfl, by decide⟩

/-- C5 (confirmed): `setupFixtures` reports `setup complete` with a nil
error whenever the aggregate load reports no error, and also whenever it
reports an error while `errorOnSetupFailure` is disabled; with
`errorOnSetupFailure` enabled an aggregate error is handed to the caller
instead. -/
theorem c5_setup_callback (flag : Bool) (models : List (String × Option Nat))
    (disk : String → JsData) (dir : List String) (sel : Select)
    (st st1 : ModuleState) (e : Nat) (out : ManyOutcome)
    (h : loadFixtures models disk dir (setupSelect sel) st = (st1, out)) :
    (out = .done none →
       setupFixtures flag models disk dir sel st
         = (st1, .ok "setup complete"))
    ∧ (out = .done (some e) → flag = false →
       setupFixtures flag models disk dir sel st
         = (st1, .ok "setup complete"))
    ∧ (out = .done (some e) → flag = true →
       setupFixtures flag models disk dir sel st = (st1, .cbErr e)) := by
  unfold setupFixtures
  rw [h]
  refine ⟨?_, ?_, ?_⟩
  · rintro rfl; rfl
  · rintro rfl rfl; rfl
  · rintro rfl rfl; rfl

/-- C5 (witness): the theorem applied at a concrete failing load with
`errorOnSetupFailure` enabled. -/
theorem c5_witness :
    (loadFixtures failModels demoDisk ["a.json"] (setupSelect (.str "a")) st0
       = (st1demo, .done (some 7)))
    ∧ (setupFixtures true failModels demoDisk ["a.json"] (.str "a") st0
       = (st1demo, .cbErr 7)) :=
  ⟨by decide,
   (c5_setup_callback true failModels demoDisk ["a.json"] (.str "a") st0
       st1demo 7 (.done (some 7)) (by decide)).2.2 rfl rfl⟩

/-- C6 (confirmed): `init` invokes the startup auto-load exactly when the
resolved environment matches the configured `environments` (membership
for a list, equality for a scalar - that is what `envMatch` computes by
definition) and `loadFixturesOnStartup` is set; and even with
`loadFixturesOnStartup` forced on, a non-matching environment leaves the
module state untouched. -/
theorem c6_env_gating (cfg : Config) (app : AppEnv)
    (models : List (String × Option Nat)) (disk : String → JsData)
    (dir : List String) (st : ModuleState) :
    ((init cfg app models disk dir st).2
       = (envMatch cfg.environments (resolveEnv app)
           && cfg.loadFixturesOnStartup))
    ∧ ((init { cfg with loadFixturesOnStartup := true } app models disk dir
          st).1
       = (if envMatch cfg.environments (resolveEnv app)
            then (loadFixtures models disk dir none st).1 else st)) := by
  unfold init
  cases hm : envMatch cfg.environments (resolveEnv app) <;>
    cases hf : cfg.loadFixturesOnStartup <;> simp [hm, hf]

/-- C7 (confirmed): on a valid fixture (file content truthy - a record
object or array - and a model registered under the name), loading twice
passes identical record content to both create calls, reads the file
from disk only on the first load, and any later `loadFixture` call made
while the cache holds a (truthy) entry for the name never re-reads that
name's file. -/
theorem c7_cache (models : List (String × Option Nat)) (disk : String → JsData)
    (n m : String) (b : Option Nat) (st st' : ModuleState)
    (hm : models.lookup n = some b)
    (hfresh : (st.cachedFixtures.getD []).lookup n = none)
    (hvalid : (disk n).truthy = true)
    (hhit : cacheHit st' n = true) :
    ((loadFixture models disk n (loadFixture models disk n st).1).1.creates
       = st.creates ++ [(n, disk n), (n, disk n)])
    ∧ ((loadFixture models disk n st).1.reads = st.reads ++ [n])
    ∧ ((loadFixture models disk n (loadFixture models disk n st).1).1.reads
       = (loadFixture models disk n st).1.reads)
    ∧ ((loadFixture models disk m st').1.reads.count n
       = st'.reads.count n) := by
  have hmiss : cacheHit st n = false := by simp [cacheHit, hfresh]
  have h1 := loadFixture_miss models disk n st b hmiss hm
  have h2 : cacheHit (loadFixture models disk n st).1 n = true := by
    rw [h1]
    simp [cacheHit, List.lookup, hvalid]
  have h3 := loadFixture_hit models disk n (loadFixture models disk n st).1
    b h2 hm
  have hdata : ((((loadFixture models disk n st).1).cachedFixtures.getD
        []).lookup n).getD (.prim false) = disk n := by
    rw [h1]
    simp [List.lookup]
  rw [hdata] at h3
  refine ⟨?_, ?_, ?_, ?_⟩
  · rw [h3]
    simp only []
    rw [h1]
    simp
  · rw [h1]
  · rw [h3]
  · cases hcm : cacheHit st' m with
    | true => unfold loadFixture; rw [hcm]; cases models.lookup m <;> simp
    | false =>
      have hmn : m ≠ n := by
        intro he; rw [he] at hcm; rw [hcm] at hhit; exact Bool.noConfusion hhit
      unfold loadFixture
      rw [hcm]
      cases models.lookup m <;>
        simp [addToCache, List.count_append, List.count_singleton', hmn]

/-- C7 (witness): the theorem applied at a concrete valid fixture
`users`, load state fresh, and a later load of a different name `pets`
against a state whose cache already holds `users`. -/
theorem c7_witness :
    ((usersModels.lookup "users" = some none)
     ∧ ((st0.cachedFixtures.getD []).lookup "users" = none)
     ∧ ((demoDisk "users").truthy = true)
     ∧ (cacheHit stCached "users" = true))
    ∧ (((loadFixture usersModels demoDisk "users"
          (loadFixture usersModels demoDisk "users" st0).1).1.creates
        = st0.creates ++ [("users", demoDisk "users"),
            ("users", demoDisk "users")])
       ∧ ((loadFixture usersModels demoDisk "users" st0).1.reads
          = st0.reads ++ ["users"])
       ∧ ((loadFixture usersModels demoDisk "users"
             (loadFixture usersModels demoDisk "users" st0).1).1.reads
          = (loadFixture usersModels demoDisk "users" st0).1.reads)
       ∧ ((loadFixture usersModels demoDisk "pets" stCached).1.reads.count
             "users"
          = stCached.reads.count "users")) :=
  ⟨⟨by decide, by decide, by decide, by decide⟩,
   c7_cache usersModels demoDisk "users" "pets" none st0 stCached
     (by decide) (by decide) (by decide) (by decide)⟩

/-- C8 (counterexample): the claim fails - with no model registered under
`users`, `loadFixture` raises a synchronous exception (the property
access `models[fixtureName].create` on `undefined`), so the failure is
NOT delivered through the operation's completion callback. -/
theorem c8_counterexample :
    ((loadFixture [] demoDisk "users" st0).2 = .thrown)
    ∧ ((loadFixture [] demoDisk "users" st0).2.isCb = false) := by decide

/-- C8 (amended): when no model is registered under the exact fixture
name, `loadFixture` throws synchronously instead of calling its
completion callback; when a model is registered, whatever error its
bulk-create reports is passed to the completion callback unwrapped. -/
theorem c8_amended (models : List (String × Option Nat))
    (disk : String → JsData) (n : String) (st : ModuleState)
    (b : Option Nat) :
    (models.lookup n = none → (loadFixture models disk n st).2 = .thrown)
    ∧ (models.lookup n = some b →
        (loadFixture models disk n st).2 = .cb b) := by
  constructor <;> intro h <;> unfold loadFixture <;> rw [h]

/-- C8 (witness): the amended theorem applied at a model whose create
reports error 5. -/
theorem c8_witness :
    (oneModel.lookup "a" = some (some 5))
    ∧ ((loadFixture oneModel demoDisk "a" st0).2 = .cb (some 5)) :=
  ⟨by decide, (c8_amended oneModel demoDisk "a" st0 (some 5)).2 (by decide)⟩

/-- C9 (counterexample): the claim fails - the file `a.jsonb.json` ends
in `.json` and is kept, but the fixture name the code derives is
`ab.json` (first occurrence of `.json` removed), not `a.jsonb` (final
suffix removed). -/
theorem c9_counterexample :
    (endsWithJson "a.jsonb.json" = true)
    ∧ (createFixtureList ["a.jsonb.json"] = ["ab.json"])
    ∧ (stripSuffixSpec "a.jsonb.json" = "a.jsonb")
    ∧ (("ab.json" : String) ≠ "a.jsonb") := by decide

/-- C9 (amended): listing keeps the entries ending in `.json` (each such
member contributes its derived name), the derived name removes the FIRST
occurrence of `.json` from the file name, and whenever no occurrence of
`.json` starts before the final one this coincides with stripping the
final `.json` suffix. -/
theorem c9_amended (files : List String) (F : String) (g : List Char)
    (hmem : F ∈ files) (hend : endsWithJson F = true)
    (hF : F.data = g ++ jsonChars)
    (hfirst : ∀ i, i < g.length →
        List.isPrefixOf jsonChars (F.data.drop i) = false) :
    (removeFirstJson F ∈ createFixtureList files)
    ∧ (removeFirstJson F = String.mk g)
    ∧ (removeFirstJson F = stripSuffixSpec F) := by
  have hstrip : removeFirstJson F = String.mk g := by
    unfold removeFirstJson
    rw [hF]
    rw [stripFirst_of_late jsonChars g (by rw [← hF]; exact hfirst)]
  refine ⟨?_, hstrip, ?_⟩
  · exact List.mem_map_of_mem removeFirstJson
      (List.mem_filter.mpr ⟨hmem, hend⟩)
  · rw [hstrip]
    unfold stripSuffixSpec
    rw [hF]
    congr 1
    rw [List.length_append]
    simp [List.take_left]

/-- C9 (witness): the amended theorem applied at the well-behaved file
name `users.json`. -/
theorem c9_witness :
    (("users.json" ∈ (["users.json"] : List String))
     ∧ (endsWithJson "users.json" = true)
     ∧ ("users.json".data = "users".data ++ jsonChars)
     ∧ (∀ i, i < "users".data.length →
          List.isPrefixOf jsonChars ("users.json".data.drop i) = false))
    ∧ ((removeFirstJson "users.json" ∈ createFixtureList ["users.json"])
       ∧ (removeFirstJson "users.json" = String.mk "users".data)
       ∧ (removeFirstJson "users.json" = stripSuffixSpec "users.json")) :=
  ⟨⟨by decide, by decide, by decide, by decide⟩,
   c9_amended ["users.json"] "users.json" "users".data (by decide)
     (by decide) (by decide) (by decide)⟩

/-- C10 (confirmed): the configuration step writes the supplied options
into the module-level defaults object itself, so a later initialisation
that omits an option observes the earlier call's value for it rather
than the original default. -/
theorem c10_defaults_mutated (d : Config) (o1 o2 : InitOptions)
    (v : Environments)
    (hv : o1.environments = some v) (ho : o2.environments = none) :
    ((initConfig d o1).1.environments = v)
    ∧ ((initConfig (initConfig d o1).1 o2).2.environments = v) := by
  unfold initConfig mergeInto
  simp [hv, ho]

/-- C10 (witness): the theorem applied at a first initialisation setting
`environments` to `staging` (not the documented default `test`) and a
second initialisation omitting every option. -/
theorem c10_witness :
    ((optsEnvStaging.environments = some (.scalar "staging"))
     ∧ (optsEmpty.environments = none))
    ∧ (((initConfig defaults optsEnvStaging).1.environments
        = .scalar "staging")
       ∧ ((initConfig (initConfig defaults optsEnvStaging).1
             optsEmpty).2.environments = .scalar "staging")) :=
  ⟨⟨rfl, rfl⟩,
   c10_defaults_mutated defaults optsEnvStaging optsEmpty
     (.scalar "staging") rfl rfl⟩

end LoopbackFixtures
